import Mathlib

/-!
Verification of the feature-assembly and ensemble-training pipeline of the
student performance / course recommendation system.

The development shallowly embeds the Python source:
  - ml_models/data_preprocessing.py   (DataPreprocessor)
  - ml_models/train_performance_models.py   (PerformancePredictor)
  - ml_models/train_recommendation_models.py   (CourseRecommender)

Conventions of the embedding:
  - pandas DataFrames of entity records become Lean lists of structures,
    in row order; numeric values are rationals.
  - pandas inner merge on key columns is embedded as ordered nested
    filtering (left row order preserved, right matches in right order).
  - DataFrame construction from a dict of Series aligns the Series on
    their integer indexes (union of the ranges, absent positions giving
    missing values); this is embedded with Option-valued cells, since the
    recommendation training table mixes Series of different lengths.
  - raising an exception is embedded as an Except error value; the
    error names follow the error taxonomy of the design (NotFoundError
    for an empty .iloc lookup, KeyError for sorting a column absent from
    an empty frame, InsufficientData for the early return of a trainer).
  - the trainer scripts are straight-line imperative code whose model
    fits can raise; a run is embedded as a function of the entity data
    and a fit oracle (which families fit successfully), returning the
    observable outcome: whether the split happened, which families were
    fit, whether models were saved, the exported snapshot keys, and the
    returned results.
-/

/-- A row of the students table, restricted to the columns the core
pipeline reads (id, current_gpa, major, has_disability). -/
structure Student where
  id : Nat
  current_gpa : ℚ
  major : Nat
  has_disability : Bool
deriving DecidableEq, Repr

/-- A row of the courses table (id, difficulty_level, credits). -/
structure Course where
  id : Nat
  difficulty_level : ℚ
  credits : ℚ
deriving DecidableEq, Repr

/-- A row of the grades fact table, restricted to the columns the core
pipeline reads (student_id, course_id, grade_point, attendance_rate). -/
structure Grade where
  student_id : Nat
  course_id : Nat
  grade_point : ℚ
  attendance_rate : ℚ
deriving DecidableEq, Repr

/-- The entity collections fetched by fetch_all_data that the assembled
features actually consume.  The preferences and disabilities tables are
fetched by the source but never contribute a feature column (the
preferences row selected in prepare_recommendation_data is unused), so
they are omitted from the embedding. -/
structure Entities where
  students : List Student
  courses : List Course
  grades : List Grade
deriving DecidableEq, Repr

/-- Arithmetic mean of a list of rationals, as pandas Series.mean
(division by zero yields the junk value 0, but every use below guards
for nonemptiness exactly where the source does). -/
def mean (xs : List ℚ) : ℚ := xs.sum / xs.length

/-- Inner merge of grades with students on student_id = id, as
pd.merge: left (grade) row order is preserved and every matching right
row is paired in right order. -/
def mergeGS : List Grade → List Student → List (Grade × Student)
  | [], _ => []
  | g :: gs, ss =>
      ((ss.filter fun s => s.id == g.student_id).map fun s => (g, s)) ++ mergeGS gs ss

/-- Second inner merge of the grade-student rows with courses on
course_id = id, same ordering semantics. -/
def mergeRowsC : List (Grade × Student) → List Course → List (Grade × Student × Course)
  | [], _ => []
  | p :: ps, cs =>
      ((cs.filter fun c => c.id == p.1.course_id).map fun c => (p.1, p.2, c)) ++ mergeRowsC ps cs

/-- The two chained merges of prepare_performance_data and of
_prepare_training_data. -/
def mergeGSC (gs : List Grade) (ss : List Student) (cs : List Course) :
    List (Grade × Student × Course) :=
  mergeRowsC (mergeGS gs ss) cs

/-- One row of the performance feature matrix: columns current_gpa,
course_difficulty, attendance_rate, has_disability (0/1), credits. -/
structure PerfRow where
  current_gpa : ℚ
  course_difficulty : ℚ
  attendance_rate : ℚ
  has_disability : Nat
  credits : ℚ
deriving DecidableEq, Repr

/-- DataPreprocessor.prepare_performance_data: merge grades with
students and courses, emit the feature columns, the grade_point target
and the derived at_risk label (1 when grade_point < 2.0). -/
def prepare_performance_data (data : Entities) :
    List PerfRow × List ℚ × List Nat :=
  let merged := mergeGSC data.grades data.students data.courses
  let features := merged.map fun r =>
    { current_gpa := r.2.1.current_gpa
      course_difficulty := r.2.2.difficulty_level
      attendance_rate := r.1.attendance_rate
      has_disability := if r.2.1.has_disability then 1 else 0
      credits := r.2.2.credits }
  let target := merged.map fun r => r.1.grade_point
  let at_risk := target.map fun t => if t < 2 then 1 else 0
  (features, target, at_risk)

/-- A grade whose student_id and course_id both resolve to an existing
entity. -/
def resolvable (data : Entities) (g : Grade) : Bool :=
  (data.students.any fun s => s.id == g.student_id) &&
    (data.courses.any fun c => c.id == g.course_id)

/-- Errors of the data-assembly operations, named after the design
taxonomy: notFound embeds the IndexError of an .iloc[0] lookup on an
empty selection, keyError embeds the KeyError of sort_values on a
column absent from an empty frame. -/
inductive DataError where
  | notFound
  | keyError
deriving DecidableEq, Repr

/-- One row of the recommendation candidate matrix. -/
structure RecRow where
  course_id : Nat
  student_gpa : ℚ
  avg_previous_grade : ℚ
  course_difficulty : ℚ
  has_disability : Nat
  credits : ℚ
deriving DecidableEq, Repr

/-- DataPreprocessor.prepare_recommendation_data: select the target
student row (.iloc[0], first match; IndexError when the selection is
empty), drop courses already taken, average the historical grade
points with the 2.5 cold-start default, and emit one row per untaken
course. -/
def prepare_recommendation_data (data : Entities) (student_id : Nat) :
    Except DataError (List RecRow) :=
  match (data.students.filter fun s => s.id == student_id).head? with
  | none => .error .notFound
  | some student =>
      let student_grades := data.grades.filter fun g => g.student_id == student_id
      let courses_taken := student_grades.map fun g => g.course_id
      let available_courses := data.courses.filter fun c => !(courses_taken.contains c.id)
      let avg_grade := if student_grades.length > 0
        then mean (student_grades.map fun g => g.grade_point) else 5/2
      .ok (available_courses.map fun c =>
        { course_id := c.id
          student_gpa := student.current_gpa
          avg_previous_grade := avg_grade
          course_difficulty := c.difficulty_level
          has_disability := if student.has_disability then 1 else 0
          credits := c.credits })

/-- One row of the similarity ranking. -/
structure SimRow where
  student_id : Nat
  similarity_score : ℚ
  avg_grade : ℚ
deriving DecidableEq, Repr

/-- Insert a row into a list sorted descending by similarity_score. -/
def insertDesc (r : SimRow) : List SimRow → List SimRow
  | [] => [r]
  | x :: xs =>
      if x.similarity_score ≤ r.similarity_score then r :: x :: xs
      else x :: insertDesc r xs

/-- Sort rows descending by similarity_score (sort_values with
ascending False; the claims do not depend on tie order). -/
def sortByScoreDesc : List SimRow → List SimRow
  | [] => []
  | x :: xs => insertDesc x (sortByScoreDesc xs)

/-- The loop body of calculate_similarity_features: skip the target id
and students without grades, otherwise build the similarity row with
score 0.4 * (5 - gpa gap) + 0.3 * major match + 0.3 * disability
match. -/
def simRowOf (target_student : Student) (data : Entities) (student_id : Nat)
    (s : Student) : Option SimRow :=
  if s.id == student_id then none
  else
    let sg := data.grades.filter fun g => g.student_id == s.id
    if sg.isEmpty then none
    else some
      { student_id := s.id
        similarity_score :=
          (5 - |target_student.current_gpa - s.current_gpa|) * (2/5) +
            (if target_student.major == s.major then 1 else 0) * (3/10) +
            (if target_student.has_disability == s.has_disability then 1 else 0) * (3/10)
        avg_grade := mean (sg.map fun g => g.grade_point) }

/-- DataPreprocessor.calculate_similarity_features: look up the target
(.iloc[0]), build one row per other student that has at least one
grade, then sort descending.  When no row was built the source calls
sort_values on an empty frame with no columns, raising KeyError. -/
def calculate_similarity_features (student_id : Nat) (data : Entities) :
    Except DataError (List SimRow) :=
  match (data.students.filter fun s => s.id == student_id).head? with
  | none => .error .notFound
  | some target_student =>
      let rows := data.students.filterMap (simRowOf target_student data student_id)
      if rows.isEmpty then .error .keyError
      else .ok (sortByScoreDesc rows)

/-- One row of the recommendation training table.  Every cell is an
Option because the source builds the DataFrame from a dict mixing
Series indexed by the merged frame with a Series indexed by the raw
grades frame; index alignment pads the shorter Series with missing
values. -/
structure TrainRow where
  student_id : Option Nat
  course_id : Option Nat
  student_gpa : Option ℚ
  course_difficulty : Option ℚ
  has_disability : Option Nat
  credits : Option ℚ
  avg_previous_grade : Option ℚ
  actual_grade : Option ℚ
  success : Option Nat
deriving DecidableEq, Repr

/-- CourseRecommender._prepare_training_data: the same two merges as
the performance features, plus groupby(student_id).transform(mean) of
grade_point over the raw grades frame.  The merged columns carry the
index range of the merged frame and the transformed average carries
the index range of the grades frame; the resulting table is indexed by
the union of the two ranges, with missing values where a column has no
entry at that index. -/
def prepare_training_data (data : Entities) : List TrainRow :=
  let merged := mergeGSC data.grades data.students data.courses
  let avg := data.grades.map fun g =>
    mean ((data.grades.filter fun g2 => g2.student_id == g.student_id).map
      fun g2 => g2.grade_point)
  (List.range (max merged.length avg.length)).map fun i =>
    { student_id := (merged[i]?).map fun r => r.1.student_id
      course_id := (merged[i]?).map fun r => r.1.course_id
      student_gpa := (merged[i]?).map fun r => r.2.1.current_gpa
      course_difficulty := (merged[i]?).map fun r => r.2.2.difficulty_level
      has_disability := (merged[i]?).map fun r => if r.2.1.has_disability then 1 else 0
      credits := (merged[i]?).map fun r => r.2.2.credits
      avg_previous_grade := avg[i]?
      actual_grade := (merged[i]?).map fun r => r.1.grade_point
      success := (merged[i]?).map fun r => if r.1.grade_point ≥ (5/2 : ℚ) then 1 else 0 }

/-- The model families of the risk/performance trainer, in the order
the script fits them. -/
inductive PerfFamily where
  | logistic
  | rfClassifier
  | gbClassifier
  | rfRegressor
deriving DecidableEq, Repr

/-- Fitting order of PerformancePredictor.train_models. -/
def perfFamilies : List PerfFamily :=
  [.logistic, .rfClassifier, .gbClassifier, .rfRegressor]

/-- The model families of the recommendation trainer, in the order the
script fits them. -/
inductive RecFamily where
  | knn
  | decisionTree
  | randomForest
  | adaboost
  | nearestNeighbors
deriving DecidableEq, Repr

/-- Fitting order of CourseRecommender.train_models. -/
def recFamilies : List RecFamily :=
  [.knn, .decisionTree, .randomForest, .adaboost, .nearestNeighbors]

/-- Which evaluation computations the script performs for one fitted
family: test-set accuracy, binary precision and recall, binary F1,
ROC-AUC from predicted probabilities, 5-fold cross-validated F1 on the
training split, and the regressor metrics RMSE, MAE, R2. -/
structure MetricsPlan where
  accuracy : Bool
  precisionScore : Bool
  recallScore : Bool
  f1 : Bool
  rocAuc : Bool
  cvF1Train : Bool
  rmse : Bool
  mae : Bool
  r2 : Bool
deriving DecidableEq, Repr

/-- Evaluation performed per family in train_performance_models: the
logistic and random-forest classifiers get accuracy, precision, recall,
F1, ROC-AUC and a 5-fold cross-validated F1 on the training split; the
gradient-boosting classifier gets the same minus the cross-validation;
the regressor gets RMSE, MAE and R2. -/
def perfEval : PerfFamily → MetricsPlan
  | .logistic => ⟨true, true, true, true, true, true, false, false, false⟩
  | .rfClassifier => ⟨true, true, true, true, true, true, false, false, false⟩
  | .gbClassifier => ⟨true, true, true, true, true, false, false, false, false⟩
  | .rfRegressor => ⟨false, false, false, false, false, false, true, true, true⟩

/-- Evaluation performed per family in train_recommendation_models:
every classifier gets accuracy, F1 and ROC-AUC (precision and recall
are never computed separately); only KNN and the decision tree get the
5-fold cross-validated F1 on the training split; the unsupervised
nearest-neighbor index is fit without evaluation. -/
def recEval : RecFamily → MetricsPlan
  | .knn => ⟨true, false, false, true, true, true, false, false, false⟩
  | .decisionTree => ⟨true, false, false, true, true, true, false, false, false⟩
  | .randomForest => ⟨true, false, false, true, true, false, false, false, false⟩
  | .adaboost => ⟨true, false, false, true, true, false, false, false, false⟩
  | .nearestNeighbors => ⟨false, false, false, false, false, false, false, false, false⟩

/-- Classifier families of the risk task (the random-forest regressor
is the one non-classifier). -/
def isPerfClassifier : PerfFamily → Bool
  | .rfRegressor => false
  | _ => true

/-- Classifier families of the recommendation task (the unsupervised
nearest-neighbor index is the one non-classifier). -/
def isRecClassifier : RecFamily → Bool
  | .nearestNeighbors => false
  | _ => true

/-- Top-level keys of the JSON document written by
PerformancePredictor._export_model_parameters. -/
def perfSnapshotKeys : List String :=
  ["metadata", "logistic_regression", "random_forest_classifier",
    "gradient_boosting_classifier", "random_forest_regressor"]

/-- Top-level keys of the JSON document written by
CourseRecommender._export_model_parameters. -/
def recSnapshotKeys : List String :=
  ["metadata", "knn", "decision_tree", "random_forest", "adaboost"]

/-- Algorithm name under which a risk-task family appears in the
exported snapshot. -/
def perfName : PerfFamily → String
  | .logistic => "logistic_regression"
  | .rfClassifier => "random_forest_classifier"
  | .gbClassifier => "gradient_boosting_classifier"
  | .rfRegressor => "random_forest_regressor"

/-- Algorithm name of a recommendation-task family (the unsupervised
index is saved as nearest_neighbors.pkl but has no snapshot entry). -/
def recName : RecFamily → String
  | .knn => "knn"
  | .decisionTree => "decision_tree"
  | .randomForest => "random_forest"
  | .adaboost => "adaboost"
  | .nearestNeighbors => "nearest_neighbors"

deriving instance DecidableEq for Except

/-- Why a training run ended without returning results: the early
return on fewer than 10 rows, or an uncaught exception from the fit of
one family. -/
inductive RunError (F : Type) where
  | insufficientData
  | fitFailure (fam : F)
deriving DecidableEq, Repr

/-- Observable outcome of one trainer run: whether the train/test split
was performed, which families were fit (in order), whether the models
were saved to disk, the top-level keys of the exported parameter
snapshot when export happened, and the returned evaluation results
(per family, the metrics computed for it). -/
structure RunOutcome (F : Type) where
  splitDone : Bool
  fitted : List F
  saved : Bool
  snapshotKeys : Option (List String)
  result : Except (RunError F) (List (F × MetricsPlan))
deriving DecidableEq

/-- Fit the families in order against a fit oracle: returns the
families fit before the first failure, and the failing family if any.
An uncaught fit exception stops the script at that point. -/
def fitSeq {F : Type} (fitOk : F → Bool) : List F → List F × Option F
  | [] => ([], none)
  | f :: fs =>
      if fitOk f then
        let r := fitSeq fitOk fs
        (f :: r.1, r.2)
      else ([], some f)

/-- PerformancePredictor.train_models: abort (plain early return)
before the split when the assembled feature matrix has fewer than 10
rows; otherwise scale, split, fit the four families in order (an
uncaught fit exception ends the run with nothing saved or exported),
then save the models, export the snapshot and return the results. -/
def runPerformance (data : Entities) (fitOk : PerfFamily → Bool) :
    RunOutcome PerfFamily :=
  if (prepare_performance_data data).1.length < 10 then
    { splitDone := false, fitted := [], saved := false, snapshotKeys := none
      result := .error .insufficientData }
  else
    match (fitSeq fitOk perfFamilies).2 with
    | some f =>
        { splitDone := true, fitted := (fitSeq fitOk perfFamilies).1, saved := false
          snapshotKeys := none, result := .error (.fitFailure f) }
    | none =>
        { splitDone := true, fitted := (fitSeq fitOk perfFamilies).1, saved := true
          snapshotKeys := some perfSnapshotKeys
          result := .ok (perfFamilies.map fun f => (f, perfEval f)) }

/-- CourseRecommender.train_models: abort (plain early return) before
the split when the assembled training table has fewer than 10 rows;
otherwise scale, split, fit the five families in order, save, export
and return the results (which cover the four classifiers; the
unsupervised index is fit and saved but not evaluated). -/
def runRecommendation (data : Entities) (fitOk : RecFamily → Bool) :
    RunOutcome RecFamily :=
  if (prepare_training_data data).length < 10 then
    { splitDone := false, fitted := [], saved := false, snapshotKeys := none
      result := .error .insufficientData }
  else
    match (fitSeq fitOk recFamilies).2 with
    | some f =>
        { splitDone := true, fitted := (fitSeq fitOk recFamilies).1, saved := false
          snapshotKeys := none, result := .error (.fitFailure f) }
    | none =>
        { splitDone := true, fitted := (fitSeq fitOk recFamilies).1, saved := true
          snapshotKeys := some recSnapshotKeys
          result := .ok ([RecFamily.knn, .decisionTree, .randomForest, .adaboost].map
            fun f => (f, recEval f)) }

/-- Mean of a column of the numeric feature frame. -/
def colMean (xs : List ℚ) : ℚ := xs.sum / xs.length

/-- Population variance of a column (StandardScaler uses ddof 0). -/
def colVar (xs : List ℚ) : ℚ :=
  ((xs.map fun x => (x - colMean xs) ^ 2).sum) / xs.length

/-- The parameters a fitted StandardScaler stores for one column
(mean_ and var_; its scale_ is the square root of var_, with zero
variance replaced by scale one). -/
structure FittedScaler where
  mean_ : ℚ
  var_ : ℚ
deriving DecidableEq, Repr

/-- StandardScaler.fit on one numeric column. -/
def fitScaler (xs : List ℚ) : FittedScaler := ⟨colMean xs, colVar xs⟩

/-- The divisor StandardScaler uses on one column: the square root of
the population variance, with zero variance replaced by one. -/
noncomputable def scaleOf (xs : List ℚ) : ℝ :=
  if colVar xs = 0 then 1 else Real.sqrt (colVar xs)

/-- StandardScaler.fit_transform on one numeric column. -/
noncomputable def stdCol (xs : List ℚ) : List ℝ :=
  xs.map fun x : ℚ => ((x : ℝ) - ((colMean xs : ℚ) : ℝ)) / scaleOf xs

/-- DataPreprocessor.normalize_features: fit_transform every numeric
column with a locally created StandardScaler and return the
transformed frame (and nothing else; the fitted scaler is a local of
the function).  The frame is embedded as its list of numeric columns,
each transformed independently. -/
noncomputable def normalize_features (cols : List (List ℚ)) : List (List ℝ) :=
  cols.map stdCol

/-- The scaling parameters the local StandardScaler fitted, column by
column. -/
def fittedScalers (cols : List (List ℚ)) : List FittedScaler :=
  cols.map fitScaler

/-- Mean of a real column. -/
noncomputable def realMean (xs : List ℝ) : ℝ := xs.sum / xs.length

/-- Population variance of a real column. -/
noncomputable def realVar (xs : List ℝ) : ℝ :=
  ((xs.map fun x => (x - realMean xs) ^ 2).sum) / xs.length

/-- In a list whose keys under f are pairwise distinct, filtering for
one key finds at most one row: exactly one when some row matches. -/
lemma filter_eq_key_length {α : Type} (f : α → Nat) (k : Nat) :
    ∀ l : List α, (l.map f).Nodup →
      (l.filter fun x => f x == k).length =
        if l.any fun x => f x == k then 1 else 0 := by
  intro l h
  induction l with
  | nil => simp
  | cons a l ih =>
    rw [List.map_cons, List.nodup_cons] at h
    obtain ⟨ha, h'⟩ := h
    by_cases hk : f a = k
    · have hl : l.filter (fun x => f x == k) = [] := by
        rw [List.filter_eq_nil_iff]
        intro x hx hpx
        exact ha (hk ▸ (by simpa using hpx) ▸ List.mem_map_of_mem f hx)
      simp [List.filter_cons, List.any_cons, hk, hl]
    · simp only [List.filter_cons, List.any_cons, beq_iff_eq, hk, if_false,
        decide_eq_true_eq, false_or]
      simpa [hk] using ih h'

/-- The second merge distributes over appended row blocks. -/
lemma mergeRowsC_append (ps qs : List (Grade × Student)) (cs : List Course) :
    mergeRowsC (ps ++ qs) cs = mergeRowsC ps cs ++ mergeRowsC qs cs := by
  induction ps with
  | nil => simp [mergeRowsC]
  | cons p ps ih => simp [mergeRowsC, ih]

/-- Row count of the chained inner merges: with pairwise-distinct
student ids and course ids, one row per grade whose two foreign keys
both resolve. -/
lemma mergeGSC_length (gs : List Grade) (ss : List Student) (cs : List Course)
    (hs : (ss.map Student.id).Nodup) (hc : (cs.map Course.id).Nodup) :
    (mergeGSC gs ss cs).length =
      (gs.filter fun g => (ss.any fun s => s.id == g.student_id) &&
        (cs.any fun c => c.id == g.course_id)).length := by
  induction gs with
  | nil => simp [mergeGSC, mergeGS, mergeRowsC]
  | cons g gs ih =>
    have hsl := filter_eq_key_length (fun s => Student.id s) g.student_id ss (by simpa using hs)
    have hcl := filter_eq_key_length (fun c => Course.id c) g.course_id cs (by simpa using hc)
    unfold mergeGSC mergeGS
    rw [mergeRowsC_append, List.length_append]
    by_cases hsa : ss.any fun s => s.id == g.student_id
    · rw [if_pos hsa] at hsl
      obtain ⟨s, hfs⟩ : ∃ s, ss.filter (fun s => s.id == g.student_id) = [s] :=
        List.length_eq_one.mp hsl
      by_cases hca : cs.any fun c => c.id == g.course_id
      · rw [if_pos hca] at hcl
        simp only [List.filter_cons, hsa, hca, Bool.and_self, if_pos]
        simp [hfs, mergeRowsC, hcl, mergeGSC] at ih ⊢
        omega
      · rw [if_neg hca] at hcl
        have : cs.filter (fun c => c.id == g.course_id) = [] := List.length_eq_zero.mp hcl
        simp only [List.filter_cons, hsa, hca, Bool.and_false, if_neg, Bool.false_eq_true,
          not_false_iff]
        simp [hfs, mergeRowsC, this, mergeGSC] at ih ⊢
        omega
    · rw [if_neg hsa] at hsl
      have : ss.filter (fun s => s.id == g.student_id) = [] := List.length_eq_zero.mp hsl
      simp only [List.filter_cons, hsa, Bool.false_and, if_neg, Bool.false_eq_true,
        not_false_iff]
      simp [this, mergeRowsC, mergeGSC] at ih ⊢
      omega

/-- The derived risk label is 1 exactly on grade points below 2. -/
lemma at_risk_label_iff (t : ℚ) : ((if t < 2 then (1 : Nat) else 0) = 1) ↔ t < 2 := by
  split <;> simp_all

/-- Claim C1: for a valid entity set (pairwise-distinct student ids and
course ids), prepare_performance_data returns one feature row per
grade whose student_id and course_id both resolve (unresolvable grades
silently dropped), the has_disability column is 0/1, the at_risk
labels are row-aligned with the grade_point targets, and at_risk is 1
exactly when the grade_point is below 2.0. -/
theorem prepare_performance_data_correct (d : Entities)
    (hs : (d.students.map Student.id).Nodup)
    (hc : (d.courses.map Course.id).Nodup) :
    (prepare_performance_data d).1.length = (d.grades.filter (resolvable d)).length ∧
    (∀ row ∈ (prepare_performance_data d).1,
      row.has_disability = 0 ∨ row.has_disability = 1) ∧
    (prepare_performance_data d).2.2.length = (prepare_performance_data d).1.length ∧
    ∀ i (h1 : i < (prepare_performance_data d).2.2.length)
      (h2 : i < (prepare_performance_data d).2.1.length),
      ((prepare_performance_data d).2.2.get ⟨i, h1⟩ = 1 ↔
        (prepare_performance_data d).2.1.get ⟨i, h2⟩ < 2) := by
  refine ⟨?_, ?_, ?_, ?_⟩
  · simp only [prepare_performance_data, List.length_map]
    exact mergeGSC_length d.grades d.students d.courses hs hc
  · intro row hrow
    simp only [prepare_performance_data, List.mem_map] at hrow
    obtain ⟨r, _, hr⟩ := hrow
    by_cases hd : r.2.1.has_disability <;> simp [← hr, hd]
  · simp [prepare_performance_data]
  · intro i h1 h2
    simp only [prepare_performance_data] at h1 h2 ⊢
    rw [List.get_eq_getElem, List.get_eq_getElem, List.getElem_map]
    exact at_risk_label_iff _

/-- Concrete valid entity set with three grades, one of which has an
unresolvable course id. -/
def dC1 : Entities :=
  { students := [⟨1, 3, 0, false⟩, ⟨2, 1, 1, true⟩]
    courses := [⟨1, 2, 3⟩]
    grades := [⟨1, 1, 3/2, 90⟩, ⟨2, 99, 3, 80⟩, ⟨2, 1, 3, 85⟩] }

/-- Witness for claim C1 at dC1: the id columns are duplicate-free and
the theorem applies. -/
theorem prepare_performance_data_correct_witness :
    (dC1.students.map Student.id).Nodup ∧
    (dC1.courses.map Course.id).Nodup ∧
    ((prepare_performance_data dC1).1.length =
        (dC1.grades.filter (resolvable dC1)).length ∧
      (∀ row ∈ (prepare_performance_data dC1).1,
        row.has_disability = 0 ∨ row.has_disability = 1) ∧
      (prepare_performance_data dC1).2.2.length =
        (prepare_performance_data dC1).1.length ∧
      ∀ i (h1 : i < (prepare_performance_data dC1).2.2.length)
        (h2 : i < (prepare_performance_data dC1).2.1.length),
        ((prepare_performance_data dC1).2.2.get ⟨i, h1⟩ = 1 ↔
          (prepare_performance_data dC1).2.1.get ⟨i, h2⟩ < 2)) :=
  ⟨by decide, by decide,
    prepare_performance_data_correct dC1 (by decide) (by decide)⟩

/-- A selection that some row satisfies has a first match. -/
lemma head_filter_some {α : Type} (p : α → Bool) (l : List α)
    (h : ∃ x ∈ l, p x) : ∃ y, (l.filter p).head? = some y := by
  cases hf : (l.filter p).head? with
  | none =>
      rw [List.head?_eq_none_iff, List.filter_eq_nil_iff] at hf
      obtain ⟨x, hx, hpx⟩ := h
      exact absurd hpx (by simpa using hf x hx)
  | some y => exact ⟨y, rfl⟩

/-- Claim C7: when the entity set contains the target student,
prepare_recommendation_data returns one row per course outside the
grade history of the student (the course_id column is exactly the list
of untaken course ids, so no returned row carries a course the student
already took), with avg_previous_grade 2.5 on empty history and the
mean of the historical grade points otherwise. -/
theorem prepare_recommendation_data_correct (d : Entities) (sid : Nat)
    (hmem : ∃ s ∈ d.students, s.id = sid) :
    ∃ rows, prepare_recommendation_data d sid = .ok rows ∧
      rows.map RecRow.course_id =
        ((d.courses.filter fun c =>
          !(((d.grades.filter fun g => g.student_id == sid).map
              fun g => g.course_id).contains c.id)).map Course.id) ∧
      (∀ r ∈ rows, ∀ g ∈ d.grades, g.student_id = sid → r.course_id ≠ g.course_id) ∧
      ((d.grades.filter fun g => g.student_id == sid) = [] →
        ∀ r ∈ rows, r.avg_previous_grade = 5/2) ∧
      ((d.grades.filter fun g => g.student_id == sid) ≠ [] →
        ∀ r ∈ rows, r.avg_previous_grade =
          mean ((d.grades.filter fun g => g.student_id == sid).map
            fun g => g.grade_point)) := by
  obtain ⟨s, hfind⟩ := head_filter_some (fun s => s.id == sid) d.students
    (by obtain ⟨s, hs, he⟩ := hmem; exact ⟨s, hs, by simp [he]⟩)
  refine ⟨_, by rw [prepare_recommendation_data, hfind], ?_, ?_, ?_, ?_⟩
  · simp [List.map_map]
  · intro r hr g hg hgsid heq
    simp only [List.mem_map] at hr
    obtain ⟨c, hc, hrc⟩ := hr
    rw [List.mem_filter] at hc
    have hcid : c.id = g.course_id := by rw [← hrc] at heq; exact heq
    have hgc : g.course_id ∈ (d.grades.filter fun g2 => g2.student_id == sid).map
        (fun g2 => g2.course_id) :=
      List.mem_map_of_mem _ (List.mem_filter.mpr ⟨hg, by simp [hgsid]⟩)
    have h2 := hc.2
    rw [Bool.not_eq_true', List.contains_eq_any_beq] at h2
    have h3 : ((d.grades.filter fun g2 => g2.student_id == sid).map
        (fun g2 => g2.course_id)).any (fun x => c.id == x) = true :=
      List.any_eq_true.mpr ⟨g.course_id, hgc, by simpa using hcid⟩
    simp_all
  · intro hempty r hr
    simp only [List.mem_map] at hr
    obtain ⟨c, _, hrc⟩ := hr
    rw [← hrc]
    simp [hempty]
  · intro hne r hr
    simp only [List.mem_map] at hr
    obtain ⟨c, _, hrc⟩ := hr
    rw [← hrc]
    have : (d.grades.filter fun g => g.student_id == sid).length > 0 := by
      cases h : d.grades.filter fun g => g.student_id == sid with
      | nil => exact absurd h hne
      | cons a l => simp [h]
    simp [this]

/-- Entity set for the C7 witness: one student with one taken course
and one untaken course. -/
def dC7 : Entities :=
  { students := [⟨1, 3, 0, true⟩]
    courses := [⟨1, 2, 3⟩, ⟨2, 4, 4⟩]
    grades := [⟨1, 1, 3, 90⟩] }

/-- Witness for claim C7 at dC7. -/
theorem prepare_recommendation_data_correct_witness :
    (∃ s ∈ dC7.students, s.id = 1) ∧
    (∃ rows, prepare_recommendation_data dC7 1 = .ok rows ∧
      rows.map RecRow.course_id =
        ((dC7.courses.filter fun c =>
          !(((dC7.grades.filter fun g => g.student_id == 1).map
              fun g => g.course_id).contains c.id)).map Course.id) ∧
      (∀ r ∈ rows, ∀ g ∈ dC7.grades, g.student_id = 1 → r.course_id ≠ g.course_id) ∧
      ((dC7.grades.filter fun g => g.student_id == 1) = [] →
        ∀ r ∈ rows, r.avg_previous_grade = 5/2) ∧
      ((dC7.grades.filter fun g => g.student_id == 1) ≠ [] →
        ∀ r ∈ rows, r.avg_previous_grade =
          mean ((dC7.grades.filter fun g => g.student_id == 1).map
            fun g => g.grade_point))) :=
  ⟨⟨⟨1, 3, 0, true⟩, by decide, rfl⟩,
    prepare_recommendation_data_correct dC7 1 ⟨⟨1, 3, 0, true⟩, by decide, rfl⟩⟩

/-- Claim C8: when no student record carries the requested id,
prepare_recommendation_data fails with the not-found error; when the
id is duplicated, the first matching record is used (its gpa and
disability flag populate every row) and no error is raised. -/
theorem prepare_recommendation_data_first_match (d : Entities) (sid : Nat) :
    ((∀ s ∈ d.students, s.id ≠ sid) →
      prepare_recommendation_data d sid = .error .notFound) ∧
    (∀ s rest, d.students.filter (fun s2 => s2.id == sid) = s :: rest →
      ∃ rows, prepare_recommendation_data d sid = .ok rows ∧
        ∀ r ∈ rows, r.student_gpa = s.current_gpa ∧
          r.has_disability = (if s.has_disability then 1 else 0)) := by
  constructor
  · intro habsent
    have hnil : d.students.filter (fun s2 => s2.id == sid) = [] := by
      rw [List.filter_eq_nil_iff]
      intro s hs
      simpa using habsent s hs
    rw [prepare_recommendation_data, hnil]
    rfl
  · intro s rest hfilter
    have hfind : (d.students.filter fun s2 => s2.id == sid).head? = some s := by
      rw [hfilter]; rfl
    refine ⟨_, by rw [prepare_recommendation_data, hfind], ?_⟩
    intro r hr
    simp only [List.mem_map] at hr
    obtain ⟨c, _, hrc⟩ := hr
    rw [← hrc]
    exact ⟨rfl, rfl⟩

/-- Entity set for the C8 witness, absent case: no student has id 7. -/
def dC8a : Entities :=
  { students := [⟨1, 3, 0, false⟩]
    courses := [⟨1, 2, 3⟩]
    grades := [] }

/-- Entity set for the C8 witness, duplicate case: two student rows
with id 7 and different gpas. -/
def dC8b : Entities :=
  { students := [⟨7, 3, 0, false⟩, ⟨7, 1, 0, true⟩]
    courses := [⟨1, 2, 3⟩]
    grades := [] }

/-- Witness for claim C8 at dC8a and dC8b: the absent id errors, the
duplicated id resolves to the first record without error. -/
theorem prepare_recommendation_data_first_match_witness :
    prepare_recommendation_data dC8a 7 = .error .notFound ∧
    (∃ rows, prepare_recommendation_data dC8b 7 = .ok rows ∧
      ∀ r ∈ rows, r.student_gpa = 3 ∧ r.has_disability = 0) :=
  ⟨(prepare_recommendation_data_first_match dC8a 7).1 (by decide),
    by
      obtain ⟨rows, hok, hall⟩ := (prepare_recommendation_data_first_match dC8b 7).2
        ⟨7, 3, 0, false⟩ [⟨7, 1, 0, true⟩] (by decide)
      exact ⟨rows, hok, fun r hr => by simpa using hall r hr⟩⟩

/-- Claim C10: when the population contains the target student and no
other student has a grade record, calculate_similarity_features fails
(the source sorts an empty frame on a missing column) instead of
returning an empty ranking; and any successful (hence nonempty) result
implies some other student with nonempty grade history. -/
theorem calculate_similarity_features_needs_peer (d : Entities) (sid : Nat)
    (hpresent : (d.students.filter fun s => s.id == sid) ≠ []) :
    ((∀ s ∈ d.students, ¬ s.id = sid →
        (d.grades.filter fun g => g.student_id == s.id) = []) →
      calculate_similarity_features sid d = .error .keyError) ∧
    (∀ rows, calculate_similarity_features sid d = .ok rows →
      ∃ s ∈ d.students, ¬ s.id = sid ∧
        (d.grades.filter fun g => g.student_id == s.id) ≠ []) := by
  obtain ⟨t, hfind⟩ : ∃ t, (d.students.filter fun s => s.id == sid).head? = some t := by
    cases hf : (d.students.filter fun s => s.id == sid).head? with
    | none => rw [List.head?_eq_none_iff] at hf; exact absurd hf hpresent
    | some t => exact ⟨t, rfl⟩
  constructor
  · intro hlonely
    rw [calculate_similarity_features, hfind]
    have hnil : d.students.filterMap (simRowOf t d sid) = [] := by
      rw [List.filterMap_eq_nil_iff]
      intro s hs
      by_cases hid : s.id = sid
      · simp [simRowOf, hid]
      · have := hlonely s hs hid
        simp [simRowOf, hid, this]
    simp only [hnil]
    rfl
  · intro rows hok
    rw [calculate_similarity_features, hfind] at hok
    simp only at hok
    by_cases hempty : (d.students.filterMap (simRowOf t d sid)).isEmpty
    · rw [if_pos hempty] at hok
      exact absurd hok (by simp)
    · rw [if_neg hempty] at hok
      obtain ⟨r, hr⟩ : ∃ r, r ∈ d.students.filterMap (simRowOf t d sid) := by
        cases h0 : d.students.filterMap (simRowOf t d sid) with
        | nil => rw [h0] at hempty; simp at hempty
        | cons a l => exact ⟨a, List.mem_cons_self a l⟩
      rw [List.mem_filterMap] at hr
      obtain ⟨s, hs, hsome⟩ := hr
      rw [simRowOf] at hsome
      by_cases hid : s.id = sid
      · rw [if_pos (by simp [hid])] at hsome
        exact absurd hsome (by simp)
      · refine ⟨s, hs, hid, ?_⟩
        rw [if_neg (by simp [hid])] at hsome
        simp only at hsome
        by_cases hsg : (d.grades.filter fun g => g.student_id == s.id).isEmpty
        · rw [if_pos hsg] at hsome
          exact absurd hsome (by simp)
        · intro hnil2
          rw [hnil2] at hsg
          exact hsg (by simp)

/-- Population for the C10 witness, failing case: the only student
with grades is the target. -/
def dC10a : Entities :=
  { students := [⟨1, 3, 0, false⟩, ⟨2, 3, 0, false⟩]
    courses := [⟨1, 2, 3⟩]
    grades := [⟨1, 1, 3, 90⟩] }

/-- Population for the C10 witness, succeeding case: student 2 has one
grade. -/
def dC10b : Entities :=
  { students := [⟨1, 3, 0, false⟩, ⟨2, 3, 0, false⟩]
    courses := [⟨1, 2, 3⟩]
    grades := [⟨1, 1, 3, 90⟩, ⟨2, 1, 2, 80⟩] }

/-- Witness for claim C10 at dC10a and dC10b. -/
theorem calculate_similarity_features_needs_peer_witness :
    calculate_similarity_features 1 dC10a = .error .keyError ∧
    (∃ s ∈ dC10b.students, ¬ s.id = 1 ∧
      (dC10b.grades.filter fun g => g.student_id == s.id) ≠ []) :=
  ⟨(calculate_similarity_features_needs_peer dC10a 1 (by decide)).1 (by decide),
    (calculate_similarity_features_needs_peer dC10b 1 (by decide)).2 _ rfl⟩

/-- Entity set exhibiting the misalignment of _prepare_training_data:
two students with one grade each, where the grade of student 1 has an
unresolvable course id and is dropped by the merge. -/
def dC2 : Entities :=
  { students := [⟨1, 3, 0, false⟩, ⟨2, 2, 0, false⟩]
    courses := [⟨1, 3, 3⟩]
    grades := [⟨1, 99, 4, 90⟩, ⟨2, 1, 0, 90⟩] }

/-- Claim C2 fails on the code: at dC2 the merge keeps a single row
(the grade of student 2, whose own average grade is 0), yet the
assembled training table has two rows; its first row pairs student 2
with avg_previous_grade 4 (the average of student 1, taken from the raw
grades frame at the same index), and its second row is a phantom row
with missing entity columns.  The table is therefore not row-aligned
with the joined grade rows and avg_previous_grade is not the average
of the grades of the row's student. -/
theorem prepare_training_data_misaligned :
    (mergeGSC dC2.grades dC2.students dC2.courses).length = 1 ∧
    (prepare_training_data dC2).length = 2 ∧
    (∃ r0, (prepare_training_data dC2)[0]? = some r0 ∧
      r0.student_id = some 2 ∧ r0.avg_previous_grade = some 4) ∧
    mean ((dC2.grades.filter fun g => g.student_id == 2).map
      fun g => g.grade_point) = 0 ∧
    (∃ r1, (prepare_training_data dC2)[1]? = some r1 ∧
      r1.student_id = none ∧ r1.success = none ∧ r1.avg_previous_grade = some 0) := by
  refine ⟨rfl, rfl, ⟨_, rfl, rfl, ?_⟩, ?_, ⟨_, rfl, rfl, rfl, ?_⟩⟩
  · show some (mean [(4 : ℚ)]) = some 4
    norm_num [mean]
  · show mean [(0 : ℚ)] = 0
    norm_num [mean]
  · show some (mean [(0 : ℚ)]) = some 0
    norm_num [mean]

/-- Fit oracle under which every family fits. -/
def allOkP : PerfFamily → Bool := fun _ => true

/-- Fit oracle under which every recommendation family fits. -/
def allOkR : RecFamily → Bool := fun _ => true

/-- Entity set whose joined feature row count is 1 while the raw grade
count is 10: one student and course, one resolvable grade and nine
grades with unresolvable course ids. -/
def dC3 : Entities :=
  { students := [⟨1, 3, 0, false⟩]
    courses := [⟨1, 3, 3⟩]
    grades := [⟨1, 1, 3, 90⟩, ⟨1, 101, 3, 90⟩, ⟨1, 102, 3, 90⟩, ⟨1, 103, 3, 90⟩,
      ⟨1, 104, 3, 90⟩, ⟨1, 105, 3, 90⟩, ⟨1, 106, 3, 90⟩, ⟨1, 107, 3, 90⟩,
      ⟨1, 108, 3, 90⟩, ⟨1, 109, 3, 90⟩] }

/-- Claim C3 fails on the code for the recommendation trainer: at dC3
the joined feature row count is 1 (below 10), and the performance
trainer duly aborts with the insufficient-data outcome before its
split, but the recommendation trainer guards on the length of its
assembled training table — which the index misalignment pads to the
raw grade count 10 — so it performs the split and proceeds instead of
aborting. -/
theorem insufficient_data_guard_mismatch :
    (prepare_performance_data dC3).1.length = 1 ∧
    (runPerformance dC3 allOkP).result = .error .insufficientData ∧
    (runPerformance dC3 allOkP).splitDone = false ∧
    (runPerformance dC3 allOkP).fitted = [] ∧
    (runPerformance dC3 allOkP).snapshotKeys = none ∧
    (prepare_training_data dC3).length = 10 ∧
    (runRecommendation dC3 allOkR).splitDone = true ∧
    (runRecommendation dC3 allOkR).result ≠ .error .insufficientData := by
  refine ⟨rfl, rfl, rfl, rfl, rfl, rfl, rfl, ?_⟩
  decide

/-- A failure among the families surfaces as the first failing family,
with every family actually fit passing the oracle. -/
lemma fitSeq_fail {F : Type} (ok : F → Bool) (fs : List F)
    (h : ∃ f ∈ fs, ok f = false) :
    ∃ f0, (fitSeq ok fs).2 = some f0 ∧ ok f0 = false ∧
      ∀ g ∈ (fitSeq ok fs).1, ok g = true := by
  induction fs with
  | nil => simp at h
  | cons f fs ih =>
    by_cases hf : ok f
    · have hfs : ∃ f2 ∈ fs, ok f2 = false := by
        obtain ⟨f2, hmem, hf2⟩ := h
        rcases List.mem_cons.mp hmem with heq | hmem2
        · rw [heq] at hf2; rw [hf2] at hf; simp at hf
        · exact ⟨f2, hmem2, hf2⟩
      obtain ⟨f0, h0, hok0, hall⟩ := ih hfs
      refine ⟨f0, ?_, hok0, ?_⟩
      · simp [fitSeq, hf, h0]
      · intro g hg
        simp only [fitSeq, hf, if_pos] at hg
        rcases List.mem_cons.mp hg with heq | hmem2
        · rw [heq]; exact hf
        · exact hall g hmem2
    · refine ⟨f, ?_, by simpa using hf, ?_⟩
      · simp [fitSeq, hf]
      · intro g hg
        simp [fitSeq, hf] at hg

/-- When no family fails, all of them were fit. -/
lemma fitSeq_complete {F : Type} (ok : F → Bool) (fs : List F)
    (h : (fitSeq ok fs).2 = none) : (fitSeq ok fs).1 = fs := by
  induction fs with
  | nil => rfl
  | cons f fs ih =>
    by_cases hf : ok f
    · simp only [fitSeq, hf, if_pos] at h ⊢
      exact congrArg (f :: ·) (ih h)
    · simp [fitSeq, hf] at h

/-- Claim C4 as amended: a family that fails to fit aborts the whole
run (not just that family): the run result is the fit-failure error,
every family that was fit passed its fit, and neither models nor a
snapshot are written.  This holds for both trainers whenever the
insufficient-data guard passes. -/
theorem fit_failure_aborts_run (d : Entities)
    (okP : PerfFamily → Bool) (okR : RecFamily → Bool) :
    (10 ≤ (prepare_performance_data d).1.length →
      (∃ f ∈ perfFamilies, okP f = false) →
      ∃ f0, okP f0 = false ∧
        (runPerformance d okP).result = .error (.fitFailure f0) ∧
        (runPerformance d okP).saved = false ∧
        (runPerformance d okP).snapshotKeys = none ∧
        ∀ g ∈ (runPerformance d okP).fitted, okP g = true) ∧
    (10 ≤ (prepare_training_data d).length →
      (∃ f ∈ recFamilies, okR f = false) →
      ∃ f0, okR f0 = false ∧
        (runRecommendation d okR).result = .error (.fitFailure f0) ∧
        (runRecommendation d okR).saved = false ∧
        (runRecommendation d okR).snapshotKeys = none ∧
        ∀ g ∈ (runRecommendation d okR).fitted, okR g = true) := by
  constructor
  · intro hlen hfail
    obtain ⟨f0, h0, hok0, hall⟩ := fitSeq_fail okP perfFamilies hfail
    have hnot : ¬ (prepare_performance_data d).1.length < 10 := by omega
    refine ⟨f0, hok0, ?_, ?_, ?_, ?_⟩ <;>
      simp only [runPerformance, hnot, h0, if_false] <;> first
      | rfl
      | simpa [runPerformance, hnot, h0] using hall
  · intro hlen hfail
    obtain ⟨f0, h0, hok0, hall⟩ := fitSeq_fail okR recFamilies hfail
    have hnot : ¬ (prepare_training_data d).length < 10 := by omega
    refine ⟨f0, hok0, ?_, ?_, ?_, ?_⟩ <;>
      simp only [runRecommendation, hnot, h0, if_false] <;> first
      | rfl
      | simpa [runRecommendation, hnot, h0] using hall

/-- Entity set with 10 resolvable grade rows for run-level claims. -/
def dRun : Entities :=
  { students := [⟨1, 3, 0, false⟩]
    courses := [⟨1, 3, 3⟩]
    grades := [⟨1, 1, 3, 90⟩, ⟨1, 1, 1, 90⟩, ⟨1, 1, 3, 90⟩, ⟨1, 1, 1, 90⟩,
      ⟨1, 1, 3, 90⟩, ⟨1, 1, 1, 90⟩, ⟨1, 1, 3, 90⟩, ⟨1, 1, 1, 90⟩,
      ⟨1, 1, 3, 90⟩, ⟨1, 1, 1, 90⟩] }

/-- Fit oracle that fails exactly the logistic family. -/
def failLogistic : PerfFamily → Bool := fun f => !(f == PerfFamily.logistic)

/-- Fit oracle that fails exactly the KNN family. -/
def failKnn : RecFamily → Bool := fun f => !(f == RecFamily.knn)

/-- Claim C4 as stated is false: at dRun, when only the logistic fit
fails, the run does not continue with the remaining families — nothing
further is fit, no results are returned at all (rather than results
missing one family), and no snapshot is exported. -/
theorem partial_success_refuted :
    (runPerformance dRun failLogistic).result = .error (.fitFailure .logistic) ∧
    (runPerformance dRun failLogistic).fitted = [] ∧
    (runPerformance dRun failLogistic).saved = false ∧
    (runPerformance dRun failLogistic).snapshotKeys = none := by
  refine ⟨?_, rfl, rfl, rfl⟩
  rfl

/-- Witness for the amended claim C4 at dRun, failing the logistic
family of the performance trainer and the KNN family of the
recommendation trainer. -/
theorem fit_failure_aborts_run_witness :
    (10 ≤ (prepare_performance_data dRun).1.length) ∧
    (10 ≤ (prepare_training_data dRun).length) ∧
    (∃ f0, failLogistic f0 = false ∧
      (runPerformance dRun failLogistic).result = .error (.fitFailure f0) ∧
      (runPerformance dRun failLogistic).saved = false ∧
      (runPerformance dRun failLogistic).snapshotKeys = none ∧
      ∀ g ∈ (runPerformance dRun failLogistic).fitted, failLogistic g = true) ∧
    (∃ f0, failKnn f0 = false ∧
      (runRecommendation dRun failKnn).result = .error (.fitFailure f0) ∧
      (runRecommendation dRun failKnn).saved = false ∧
      (runRecommendation dRun failKnn).snapshotKeys = none ∧
      ∀ g ∈ (runRecommendation dRun failKnn).fitted, failKnn g = true) :=
  ⟨by decide, by decide,
    (fit_failure_aborts_run dRun failLogistic failKnn).1 (by decide)
      ⟨.logistic, by decide, by decide⟩,
    (fit_failure_aborts_run dRun failLogistic failKnn).2 (by decide)
      ⟨.knn, by decide, by decide⟩⟩

/-- A successful performance run returns exactly the four families
with their evaluation plans. -/
lemma runPerformance_ok (d : Entities) (okP : PerfFamily → Bool)
    (fams : List (PerfFamily × MetricsPlan))
    (h : (runPerformance d okP).result = .ok fams) :
    fams = perfFamilies.map fun f => (f, perfEval f) := by
  unfold runPerformance at h
  split at h
  · simp at h
  · split at h
    · simp at h
    · simp only at h
      exact (Except.ok.inj h).symm

/-- A successful recommendation run returns exactly the four
classifier families with their evaluation plans. -/
lemma runRecommendation_ok (d : Entities) (okR : RecFamily → Bool)
    (fams : List (RecFamily × MetricsPlan))
    (h : (runRecommendation d okR).result = .ok fams) :
    fams = [RecFamily.knn, .decisionTree, .randomForest, .adaboost].map
      fun f => (f, recEval f) := by
  unfold runRecommendation at h
  split at h
  · simp at h
  · split at h
    · simp at h
    · simp only at h
      exact (Except.ok.inj h).symm

/-- Claim C5 as stated is false: in the successful performance run at
dRun, the gradient-boosting classifier is evaluated without any
cross-validated F1 (no cross_val_score call exists for it in the
source). -/
theorem cv_f1_missing_for_gb :
    (runPerformance dRun allOkP).result =
      .ok (perfFamilies.map fun f => (f, perfEval f)) ∧
    isPerfClassifier .gbClassifier = true ∧
    (PerfFamily.gbClassifier, perfEval .gbClassifier) ∈
      (perfFamilies.map fun f => (f, perfEval f)) ∧
    (perfEval .gbClassifier).cvF1Train = false := by
  refine ⟨rfl, rfl, by decide, rfl⟩

/-- Claim C5 as amended: every classifier family of either task is
evaluated with accuracy, binary F1 and ROC-AUC; the risk-task
classifiers additionally get binary precision and recall while the
recommendation-task classifiers do not; and the 5-fold cross-validated
F1 on the training split is computed exactly for the logistic and
random-forest classifiers of the risk task and the KNN and
decision-tree classifiers of the recommendation task. -/
theorem classifier_metrics (d : Entities)
    (okP : PerfFamily → Bool) (okR : RecFamily → Bool) :
    (∀ fams, (runPerformance d okP).result = .ok fams →
      ∀ f mp, (f, mp) ∈ fams → isPerfClassifier f = true →
        mp.accuracy = true ∧ mp.precisionScore = true ∧ mp.recallScore = true ∧
          mp.f1 = true ∧ mp.rocAuc = true ∧
          mp.cvF1Train = (f == .logistic || f == .rfClassifier)) ∧
    (∀ fams, (runRecommendation d okR).result = .ok fams →
      ∀ f mp, (f, mp) ∈ fams → isRecClassifier f = true →
        mp.accuracy = true ∧ mp.precisionScore = false ∧ mp.recallScore = false ∧
          mp.f1 = true ∧ mp.rocAuc = true ∧
          mp.cvF1Train = (f == .knn || f == .decisionTree)) := by
  constructor
  · intro fams hok f mp hmem
    rw [runPerformance_ok d okP fams hok] at hmem
    simp only [List.mem_map] at hmem
    obtain ⟨f2, _, heq⟩ := hmem
    have hf : f2 = f := congrArg Prod.fst heq
    have hmp : perfEval f2 = mp := congrArg Prod.snd heq
    subst hf
    subst hmp
    cases f2 <;> decide
  · intro fams hok f mp hmem
    rw [runRecommendation_ok d okR fams hok] at hmem
    simp only [List.mem_map] at hmem
    obtain ⟨f2, _, heq⟩ := hmem
    have hf : f2 = f := congrArg Prod.fst heq
    have hmp : recEval f2 = mp := congrArg Prod.snd heq
    subst hf
    subst hmp
    cases f2 <;> decide

/-- Witness for the amended claim C5: the successful run at dRun,
inspected at the gradient-boosting classifier of the risk task and the
random-forest classifier of the recommendation task. -/
theorem classifier_metrics_witness :
    ((runPerformance dRun allOkP).result =
      .ok (perfFamilies.map fun f => (f, perfEval f))) ∧
    ((perfEval .gbClassifier).accuracy = true ∧
      (perfEval .gbClassifier).precisionScore = true ∧
      (perfEval .gbClassifier).recallScore = true ∧
      (perfEval .gbClassifier).f1 = true ∧
      (perfEval .gbClassifier).rocAuc = true ∧
      (perfEval .gbClassifier).cvF1Train =
        (PerfFamily.gbClassifier == .logistic ||
          PerfFamily.gbClassifier == .rfClassifier)) ∧
    ((recEval .randomForest).accuracy = true ∧
      (recEval .randomForest).precisionScore = false ∧
      (recEval .randomForest).recallScore = false ∧
      (recEval .randomForest).f1 = true ∧
      (recEval .randomForest).rocAuc = true ∧
      (recEval .randomForest).cvF1Train =
        (RecFamily.randomForest == .knn ||
          RecFamily.randomForest == .decisionTree)) :=
  ⟨rfl,
    (classifier_metrics dRun allOkP allOkR).1 _ rfl .gbClassifier _ (by decide) rfl,
    (classifier_metrics dRun allOkP allOkR).2 _ rfl .randomForest _ (by decide) rfl⟩

/-- Claim C9 as stated is false: in the successful recommendation run
at dRun every family fit, including the unsupervised nearest-neighbor
index, yet the exported snapshot has no key for it (and carries the
extra metadata key), so the key set does not match the set of families
that successfully fit. -/
theorem snapshot_omits_fitted_family :
    (runRecommendation dRun allOkR).fitted = recFamilies ∧
    RecFamily.nearestNeighbors ∈ recFamilies ∧
    (runRecommendation dRun allOkR).snapshotKeys = some recSnapshotKeys ∧
    recName .nearestNeighbors ∉ recSnapshotKeys := by
  refine ⟨rfl, by decide, rfl, by decide⟩

/-- A performance run either exports no snapshot or exports the fixed
key list, in which case every family was fit. -/
lemma runPerformance_export (d : Entities) (okP : PerfFamily → Bool) :
    (runPerformance d okP).snapshotKeys = none ∨
    ((runPerformance d okP).snapshotKeys = some perfSnapshotKeys ∧
      (runPerformance d okP).fitted = perfFamilies) := by
  unfold runPerformance
  split
  · left; rfl
  · split
    · left; rfl
    · next hnone => right; exact ⟨rfl, fitSeq_complete okP perfFamilies hnone⟩

/-- A recommendation run either exports no snapshot or exports the
fixed key list, in which case every family was fit. -/
lemma runRecommendation_export (d : Entities) (okR : RecFamily → Bool) :
    (runRecommendation d okR).snapshotKeys = none ∨
    ((runRecommendation d okR).snapshotKeys = some recSnapshotKeys ∧
      (runRecommendation d okR).fitted = recFamilies) := by
  unfold runRecommendation
  split
  · left; rfl
  · split
    · left; rfl
    · next hnone => right; exact ⟨rfl, fitSeq_complete okR recFamilies hnone⟩

/-- Claim C9 as amended: whenever a run exports a snapshot, every
family fit successfully; the key set is fixed — a metadata entry plus
one key per exported family, the exported families being all four of
the risk task but only the four classifiers of the recommendation
task, whose fitted unsupervised nearest-neighbor index has no key. -/
theorem snapshot_key_set (d : Entities)
    (okP : PerfFamily → Bool) (okR : RecFamily → Bool) :
    (∀ keys, (runPerformance d okP).snapshotKeys = some keys →
      (runPerformance d okP).fitted = perfFamilies ∧
      keys = "metadata" :: perfFamilies.map perfName) ∧
    (∀ keys, (runRecommendation d okR).snapshotKeys = some keys →
      (runRecommendation d okR).fitted = recFamilies ∧
      keys = "metadata" ::
        ([RecFamily.knn, .decisionTree, .randomForest, .adaboost].map recName) ∧
      recName .nearestNeighbors ∉ keys) := by
  constructor
  · intro keys hkeys
    rcases runPerformance_export d okP with h | ⟨h1, h2⟩
    · rw [h] at hkeys; exact Option.noConfusion hkeys
    · rw [h1] at hkeys
      obtain hk := (Option.some.inj hkeys).symm
      exact ⟨h2, by rw [hk]; rfl⟩
  · intro keys hkeys
    rcases runRecommendation_export d okR with h | ⟨h1, h2⟩
    · rw [h] at hkeys; exact Option.noConfusion hkeys
    · rw [h1] at hkeys
      obtain hk := (Option.some.inj hkeys).symm
      exact ⟨h2, by rw [hk]; rfl, by rw [hk]; decide⟩

/-- Witness for the amended claim C9 at the successful runs at dRun. -/
theorem snapshot_key_set_witness :
    ((runPerformance dRun allOkP).snapshotKeys = some perfSnapshotKeys) ∧
    ((runPerformance dRun allOkP).fitted = perfFamilies ∧
      perfSnapshotKeys = "metadata" :: perfFamilies.map perfName) ∧
    ((runRecommendation dRun allOkR).fitted = recFamilies ∧
      recSnapshotKeys = "metadata" ::
        ([RecFamily.knn, .decisionTree, .randomForest, .adaboost].map recName) ∧
      recName .nearestNeighbors ∉ recSnapshotKeys) :=
  ⟨rfl, (snapshot_key_set dRun allOkP allOkR).1 perfSnapshotKeys rfl,
    (snapshot_key_set dRun allOkP allOkR).2 recSnapshotKeys rfl⟩


/-- Dividing every mapped element divides the sum. -/
lemma sum_map_div (l : List ℚ) (f : ℚ → ℝ) (s : ℝ) :
    (l.map fun x : ℚ => f x / s).sum = (l.map f).sum / s := by
  induction l with
  | nil => simp
  | cons a l ih => simp [ih, add_div]

/-- Subtracting a constant from every mapped element subtracts it
length-many times from the sum. -/
lemma sum_map_sub_const (l : List ℚ) (f : ℚ → ℝ) (c : ℝ) :
    (l.map fun x : ℚ => f x - c).sum = (l.map f).sum - l.length * c := by
  induction l with
  | nil => simp
  | cons a l ih =>
    simp only [List.map_cons, List.sum_cons, List.length_cons, ih]
    push_cast
    ring

/-- Casting a rational sum to the reals sums the casts. -/
lemma sum_cast (l : List ℚ) :
    ((l.sum : ℚ) : ℝ) = (l.map fun x : ℚ => (x : ℝ)).sum := by
  induction l with
  | nil => simp
  | cons a l ih =>
    rw [List.sum_cons, List.map_cons, List.sum_cons, Rat.cast_add, ih]

/-- The cast column mean is the real mean of the cast column. -/
lemma colMean_cast (xs : List ℚ) :
    ((colMean xs : ℚ) : ℝ) = (xs.map fun x : ℚ => (x : ℝ)).sum / xs.length := by
  rw [colMean, Rat.cast_div, sum_cast, Rat.cast_natCast]

/-- The cast column variance is the real variance about the cast
mean. -/
lemma colVar_cast (xs : List ℚ) :
    ((colVar xs : ℚ) : ℝ) =
      ((xs.map fun x : ℚ => ((x : ℝ) - ((colMean xs : ℚ) : ℝ)) ^ 2).sum) /
        xs.length := by
  rw [colVar, Rat.cast_div, sum_cast, Rat.cast_natCast, List.map_map]
  refine congrArg (· / (xs.length : ℝ)) (congrArg List.sum (List.map_congr_left ?_))
  intro a _
  show (((a - colMean xs) ^ 2 : ℚ) : ℝ) = _
  push_cast
  ring

/-- The column variance is nonnegative. -/
lemma colVar_nonneg (xs : List ℚ) : 0 ≤ colVar xs := by
  apply div_nonneg
  · apply List.sum_nonneg
    intro x hx
    simp only [List.mem_map] at hx
    obtain ⟨a, _, ha⟩ := hx
    rw [← ha]
    exact sq_nonneg _
  · exact Nat.cast_nonneg _

/-- Claim C6 as amended: normalize_features standardizes every
nonempty numeric column — the transformed column has zero mean, and
unit population variance whenever the input column is not constant
(zero input variance degenerates the divisor to one and yields the
all-zero column).  Only the transformed matrix is returned; the
fitted scaling parameters do not survive the call (see the
counterexample, where two inputs with distinct fitted parameters give
the identical output). -/
theorem normalize_features_standardizes (cols : List (List ℚ)) (i : ℕ)
    (col : List ℚ) (hcol : cols[i]? = some col) (hne : col ≠ []) :
    ∃ out, (normalize_features cols)[i]? = some out ∧
      realMean out = 0 ∧ (colVar col ≠ 0 → realVar out = 1) := by
  have hlen : (col.length : ℝ) ≠ 0 := by
    simpa using fun h => hne (List.length_eq_zero.mp h)
  have hsum : (stdCol col).sum = 0 := by
    rw [stdCol, sum_map_div, sum_map_sub_const, colMean_cast]
    have hms : (col.length : ℝ) *
        ((col.map fun x : ℚ => (x : ℝ)).sum / (col.length : ℝ)) =
        (col.map fun x : ℚ => (x : ℝ)).sum := by
      field_simp
    rw [hms, sub_self, zero_div]
  have hmean : realMean (stdCol col) = 0 := by
    rw [realMean, hsum, zero_div]
  refine ⟨stdCol col, ?_, hmean, ?_⟩
  · rw [normalize_features, List.getElem?_map, hcol]
    rfl
  · intro hvar
    have hnn : (0 : ℝ) ≤ ((colVar col : ℚ) : ℝ) := by
      exact_mod_cast colVar_nonneg col
    have hcast : ((colVar col : ℚ) : ℝ) ≠ 0 := by
      exact_mod_cast hvar
    have hsq : scaleOf col ^ 2 = ((colVar col : ℚ) : ℝ) := by
      rw [scaleOf, if_neg hvar, Real.sq_sqrt hnn]
    rw [realVar, hmean]
    have hlen2 : (stdCol col).length = col.length := by
      rw [stdCol, List.length_map]
    have hmapsq : (stdCol col).map (fun x => (x - 0) ^ 2) =
        col.map fun x : ℚ =>
          (((x : ℝ) - ((colMean col : ℚ) : ℝ)) ^ 2) / scaleOf col ^ 2 := by
      rw [stdCol, List.map_map]
      refine List.map_congr_left ?_
      intro a _
      show (((a : ℝ) - ((colMean col : ℚ) : ℝ)) / scaleOf col - 0) ^ 2 = _
      rw [sub_zero, div_pow]
    rw [hmapsq, hlen2, sum_map_div]
    have hsumsq : (col.map fun x : ℚ =>
        ((x : ℝ) - ((colMean col : ℚ) : ℝ)) ^ 2).sum =
        ((colVar col : ℚ) : ℝ) * col.length := by
      rw [colVar_cast, div_mul_cancel₀ _ hlen]
    rw [hsumsq, hsq]
    field_simp

/-- Witness for the amended claim C6 at the single column 1, 3. -/
theorem normalize_features_standardizes_witness :
    (([[(1 : ℚ), 3]] : List (List ℚ))[0]? = some [1, 3]) ∧
    (([(1 : ℚ), 3] : List ℚ) ≠ []) ∧
    (∃ out, (normalize_features [[(1 : ℚ), 3]])[0]? = some out ∧
      realMean out = 0 ∧ (colVar [(1 : ℚ), 3] ≠ 0 → realVar out = 1)) :=
  ⟨rfl, by decide,
    normalize_features_standardizes [[(1 : ℚ), 3]] 0 [1, 3] rfl (by decide)⟩

/-- The standardized column of 1, 3 (mean 2, variance 1). -/
lemma stdCol_one_three : stdCol [1, 3] = [-1, 1] := by
  have hm : colMean [1, 3] = 2 := by norm_num [colMean]
  have hv : colVar [1, 3] = 1 := by norm_num [colVar, colMean]
  rw [stdCol, scaleOf, hv, if_neg (by norm_num)]
  norm_num [hm, Real.sqrt_one]

/-- The standardized column of 2, 6 (mean 4, variance 4). -/
lemma stdCol_two_six : stdCol [2, 6] = [-1, 1] := by
  have hm : colMean [2, 6] = 4 := by norm_num [colMean]
  have hv : colVar [2, 6] = 4 := by norm_num [colVar, colMean]
  have hs : Real.sqrt (4 : ℝ) = 2 := by
    rw [show (4 : ℝ) = 2 ^ 2 by norm_num, Real.sqrt_sq (by norm_num : (0 : ℝ) ≤ 2)]
  rw [stdCol, scaleOf, hv, if_neg (by norm_num)]
  norm_num [hm, hs]

/-- Claim C6 as stated is false: normalize_features does not return
the fitted scaling parameters along with the transformed matrix — the
columns 1, 3 and 2, 6 fit different scaling parameters yet produce the
same output, so the result of the operation cannot contain (or even
determine) the fitted scaler. -/
theorem normalize_features_loses_scaler :
    fittedScalers [[1, 3]] ≠ fittedScalers [[2, 6]] ∧
    normalize_features [[1, 3]] = normalize_features [[2, 6]] := by
  constructor
  · have e1 : fittedScalers [[1, 3]] = [⟨2, 1⟩] := by
      norm_num [fittedScalers, fitScaler, colMean, colVar]
    have e2 : fittedScalers [[2, 6]] = [⟨4, 4⟩] := by
      norm_num [fittedScalers, fitScaler, colMean, colVar]
    rw [e1, e2]
    intro h
    norm_num at h
  · simp only [normalize_features, List.map_cons, List.map_nil,
      stdCol_one_three, stdCol_two_six]
